import Mathlib

/-!
Shallow embedding of the outgoing-payment engine of the `rafiki` backend
(`src/packages/backend/src/outgoing_payment/service.ts`, the GraphQL
resolver file concatenated to it, and
`src/packages/backend/src/services/spsp.ts`), together with theorems
settling the specification claims about it.

Conventions of the embedding:
* A thrown JS `Error` becomes `Except.error` carrying the message string.
* An Objection `patch {f := v}` inside a transaction becomes a record
  update `{ p with f := v }` of the fetched row: all other columns keep
  their values; a thrown error rolls the transaction back, so the row is
  unchanged exactly when the embedded function returns `Except.error`.
* External capabilities (ILP plugin, `Pay.setupPayment`, the account
  service, the page store, axios, the STREAM server) are oracles: their
  outcomes are fields of an environment record, so theorems quantify over
  every possible behaviour of the collaborators.
-/

deriving instance DecidableEq for Except

namespace Rafiki

/-- Lifecycle states of an outgoing payment.  The source file refers to
`PaymentState.Inactive` (the initial state, called `Quoting` in prose),
`Ready`, `Activated`, `Cancelling`, `Cancelled`; `Sending` and `Completed`
complete the closed set of lifecycle states. -/
inductive PaymentState
  | Inactive
  | Ready
  | Activated
  | Sending
  | Cancelling
  | Cancelled
  | Completed
deriving DecidableEq, Repr

/-- Printed form of a state, used in the thrown error messages
(`'Cannot approve; payment is in state=' + state`). -/
def PaymentState.toText : PaymentState → String
  | .Inactive => "INACTIVE"
  | .Ready => "READY"
  | .Activated => "ACTIVATED"
  | .Sending => "SENDING"
  | .Cancelling => "CANCELLING"
  | .Cancelled => "CANCELLED"
  | .Completed => "COMPLETED"

/-- `PaymentIntent` of the model: a single record of optional fields, as in
the source (`{ paymentPointer?, invoiceUrl?, amountToSend?, autoApprove }`). -/
structure PaymentIntent where
  paymentPointer : Option String
  invoiceUrl : Option String
  amountToSend : Option Nat
  autoApprove : Bool
deriving DecidableEq, Repr

/-- `sourceAccount` column: `{ id, code, scale }` captured at admission. -/
structure SourceAccount where
  id : String
  code : String
  scale : Nat
deriving DecidableEq, Repr

/-- `destinationAccount` column: `{ scale, code, url }`. -/
structure DestinationAccount where
  scale : Nat
  code : String
  url : String
deriving DecidableEq, Repr

/-- The quote column.  Its contents never influence the commands under
study; the fields mirror §3.1 of the data model. -/
structure Quote where
  timestamp : Nat
  activationDeadline : Nat
  maxSourceAmount : Nat
  minDeliveryAmount : Nat
deriving DecidableEq, Repr

/-- A persisted `outgoing_payments` row. -/
structure Payment where
  id : String
  state : PaymentState
  stateAttempts : Nat
  intent : PaymentIntent
  accountId : String
  superAccountId : String
  sourceAccount : SourceAccount
  destinationAccount : Option DestinationAccount
  quote : Option Quote
  error : Option String
deriving DecidableEq, Repr

/-! ## Transactional command API

`requotePayment`, `approvePayment` and `cancelPayment` each run
`findById(id).forUpdate()` and then either throw (transaction rolled
back, row untouched) or patch the row.  The embedded functions take the
fetched row (`none` when the id resolves to no payment) and return the
committed row or the thrown message. -/

/-- `requotePayment` (service.ts lines 127-140): requires
`state = Cancelled`, then patches only `{ state: PaymentState.Inactive }`. -/
def requotePayment (payment : Option Payment) : Except String Payment :=
  match payment with
  | none => .error "payment does not exist"
  | some p =>
    if p.state ≠ PaymentState.Cancelled then
      .error ("Cannot quote; payment is in state=" ++ p.state.toText)
    else
      .ok { p with state := PaymentState.Inactive }

/-- `approvePayment` (service.ts lines 142-155): requires `state = Ready`,
then patches only `{ state: PaymentState.Activated }`. -/
def approvePayment (payment : Option Payment) : Except String Payment :=
  match payment with
  | none => .error "payment does not exist"
  | some p =>
    if p.state ≠ PaymentState.Ready then
      .error ("Cannot approve; payment is in state=" ++ p.state.toText)
    else
      .ok { p with state := PaymentState.Activated }

/-- `cancelPayment` (service.ts lines 157-173): requires `state = Ready`,
then patches `{ state: Cancelling, error: CancelledByAPI }` in the same
transaction. -/
def cancelPayment (payment : Option Payment) : Except String Payment :=
  match payment with
  | none => .error "payment does not exist"
  | some p =>
    if p.state ≠ PaymentState.Ready then
      .error ("Cannot cancel; payment is in state=" ++ p.state.toText)
    else
      .ok { p with state := PaymentState.Cancelling,
                   error := some "CancelledByAPI" }

/-! ## Claims C1, C2, C4: the transactional commands -/

/-- A Cancelled payment that still carries an error code, a quote and a
nonzero attempt counter, as any payment cancelled after retries does. -/
def cancelledAfterFailure : Payment :=
  { id := "p1"
    state := PaymentState.Cancelled
    stateAttempts := 3
    intent := { paymentPointer := some "$wallet.example/alice"
                invoiceUrl := none
                amountToSend := some 1000
                autoApprove := false }
    accountId := "acc1"
    superAccountId := "super1"
    sourceAccount := { id := "acc1", code := "USD", scale := 2 }
    destinationAccount := some { scale := 2, code := "USD"
                                 url := "https://wallet.example/alice" }
    quote := some { timestamp := 10, activationDeadline := 5010
                    maxSourceAmount := 1050, minDeliveryAmount := 1000 }
    error := some "SendFailed" }

/-- C1 (counterexample): on a Cancelled payment whose row still holds
`error = SendFailed`, `stateAttempts = 3` and a quote, `requote` succeeds
but the committed row keeps all three — the claimed reset to
`quote=null, error=null, stateAttempts=0` does not happen. -/
theorem requote_no_reset_counterexample :
    requotePayment (some cancelledAfterFailure)
      = Except.ok { cancelledAfterFailure with state := PaymentState.Inactive }
    ∧ (requotePayment (some cancelledAfterFailure)).map Payment.error
        ≠ Except.ok none
    ∧ (requotePayment (some cancelledAfterFailure)).map Payment.stateAttempts
        ≠ Except.ok 0
    ∧ (requotePayment (some cancelledAfterFailure)).map Payment.quote
        ≠ Except.ok none := by
  decide

/-- C1 (amended): `requote(id)` succeeds exactly on a Cancelled payment,
committing only `state = Quoting` (the source's `Inactive`); `quote`,
`error` and `stateAttempts` keep their previous values.  In every other
state, and on a missing payment, it throws and the row is unchanged. -/
theorem requote_characterization (payment : Option Payment) :
    requotePayment payment
      = match payment with
        | none => Except.error "payment does not exist"
        | some p =>
          if p.state = PaymentState.Cancelled then
            Except.ok { p with state := PaymentState.Inactive }
          else
            Except.error ("Cannot quote; payment is in state="
              ++ p.state.toText) := by
  cases payment with
  | none => rfl
  | some p =>
    by_cases h : p.state = PaymentState.Cancelled <;>
      simp [requotePayment, h]

/-- C2: `approve(id)` succeeds exactly on a Ready payment, committing only
`state = Activated`; in every other state it throws `Cannot approve` and
the row is unchanged.  Consequently a second `approve` right after a
successful one throws, leaving the row in `Activated`. -/
theorem approve_characterization (payment : Option Payment) :
    approvePayment payment
      = (match payment with
        | none => Except.error "payment does not exist"
        | some p =>
          if p.state = PaymentState.Ready then
            Except.ok { p with state := PaymentState.Activated }
          else
            Except.error ("Cannot approve; payment is in state="
              ++ p.state.toText))
    ∧ (∀ q : Payment, approvePayment payment = Except.ok q →
        q.state = PaymentState.Activated
        ∧ approvePayment (some q)
            = Except.error "Cannot approve; payment is in state=ACTIVATED") := by
  refine ⟨?_, ?_⟩
  · cases payment with
    | none => rfl
    | some p =>
      by_cases h : p.state = PaymentState.Ready <;>
        simp [approvePayment, h]
  · intro q hq
    cases payment with
    | none => simp [approvePayment] at hq
    | some p =>
      by_cases h : p.state = PaymentState.Ready
      · simp [approvePayment, h] at hq
        subst hq
        exact ⟨rfl, by simp [approvePayment, PaymentState.toText]⟩
      · simp [approvePayment, h] at hq

/-- Witness for C2 at a concrete Ready payment: `approve` commits
`Activated`, and `approve` again throws. -/
theorem approve_characterization_witness :
    approvePayment (some { cancelledAfterFailure with
        state := PaymentState.Ready })
      = Except.ok { cancelledAfterFailure with state := PaymentState.Activated }
    ∧ approvePayment (some { cancelledAfterFailure with
        state := PaymentState.Activated })
      = Except.error "Cannot approve; payment is in state=ACTIVATED" := by
  have h := (approve_characterization
    (some { cancelledAfterFailure with state := PaymentState.Ready })).2
  have h2 := h { cancelledAfterFailure with state := PaymentState.Activated }
    (by decide)
  exact ⟨by decide, h2.2⟩

/-- C4: `cancel(id)` succeeds exactly on a Ready payment, committing
`state = Cancelling` together with `error = CancelledByAPI` in one
transaction; in every other state, and on a missing payment, it throws
and the row is unchanged. -/
theorem cancel_characterization (payment : Option Payment) :
    cancelPayment payment
      = match payment with
        | none => Except.error "payment does not exist"
        | some p =>
          if p.state = PaymentState.Ready then
            Except.ok { p with state := PaymentState.Cancelling,
                               error := some "CancelledByAPI" }
          else
            Except.error ("Cannot cancel; payment is in state="
              ++ p.state.toText) := by
  cases payment with
  | none => rfl
  | some p =>
    by_cases h : p.state = PaymentState.Ready <;>
      simp [cancelPayment, h]

/-! ## `createOutgoingPayment` (service.ts lines 59-125)

`create` validates the intent, opens an ILP plugin, runs
`Pay.setupPayment` with a `finally` that disconnects the plugin, creates
a source sub-account, and inserts the row.  The external outcomes are an
environment; the returned trace records the plugin connect/disconnect
calls in order. -/

/-- JS truthiness of an optional string field: `undefined` and the empty
string are falsy. -/
def jsTruthy : Option String → Bool
  | none => false
  | some s => s ≠ ""

/-- Plugin lifecycle calls issued by the service, in order. -/
inductive PluginEvent
  | connect
  | disconnect
deriving DecidableEq, Repr

/-- Result of `Pay.setupPayment`: the resolved destination. -/
structure Destination where
  destinationAssetScale : Nat
  destinationAssetCode : String
  accountUrl : String
deriving DecidableEq, Repr

/-- Result of `accountService.create`: the new sub-account. -/
structure CreatedAccount where
  id : String
  assetCode : String
  assetScale : Nat
deriving DecidableEq, Repr

/-- `CreateOutgoingPaymentOptions = PaymentIntent & { superAccountId }`. -/
structure CreateOptions where
  paymentPointer : Option String
  invoiceUrl : Option String
  amountToSend : Option Nat
  autoApprove : Bool
  superAccountId : String
deriving DecidableEq, Repr

/-- Outcomes of the external calls made by `create`: `plugin.connect()`,
`Pay.setupPayment`, `accountService.create`, and the id the insert
generates. -/
structure CreateEnv where
  connect : Except String Unit
  setupPayment : Except String Destination
  createAccount : Except String CreatedAccount
  newPaymentId : String
deriving DecidableEq, Repr

/-- The guard of `createOutgoingPayment`:
`options.invoiceUrl && (options.paymentPointer || options.amountToSend !== undefined)`.
Note `amountToSend !== undefined` is presence, so `amountToSend = 0`
counts, while the string fields are tested for truthiness. -/
def intentConflict (options : CreateOptions) : Bool :=
  jsTruthy options.invoiceUrl
    && (jsTruthy options.paymentPointer || options.amountToSend.isSome)

/-- `createOutgoingPayment` (service.ts lines 59-125).  Modelled from the
spec for the columns the insert leaves unset (`outgoing_payment/model.ts`
is not part of the sources): `stateAttempts` defaults to 0, `quote` and
`error` to null (§4.1 "persists `Payment{state=Quoting, stateAttempts=0}`"),
and `accountId` is the sub-account created at admission (§3.1). -/
def createOutgoingPayment (env : CreateEnv) (options : CreateOptions) :
    Except String Payment × List PluginEvent :=
  if intentConflict options then
    (.error "invoiceUrl and (paymentPointer,amountToSend) are mutually exclusive",
     [])
  else
    match env.connect with
    | .error e => (.error e, [])
    | .ok _ =>
      match env.setupPayment with
      | .error e => (.error e, [PluginEvent.connect, PluginEvent.disconnect])
      | .ok destination =>
        match env.createAccount with
        | .error accErr =>
          (.error ("unable to create source account, err=" ++ accErr),
           [PluginEvent.connect, PluginEvent.disconnect])
        | .ok sourceAccount =>
          (.ok { id := env.newPaymentId
                 state := PaymentState.Inactive
                 stateAttempts := 0
                 intent := { paymentPointer := options.paymentPointer
                             invoiceUrl := options.invoiceUrl
                             amountToSend := options.amountToSend
                             autoApprove := options.autoApprove }
                 accountId := sourceAccount.id
                 superAccountId := options.superAccountId
                 sourceAccount := { id := sourceAccount.id
                                    code := sourceAccount.assetCode
                                    scale := sourceAccount.assetScale }
                 destinationAccount :=
                   some { scale := destination.destinationAssetScale
                          code := destination.destinationAssetCode
                          url := destination.accountUrl }
                 quote := none
                 error := none },
           [PluginEvent.connect, PluginEvent.disconnect])

/-- An environment in which every external call succeeds. -/
def envAllOk : CreateEnv :=
  { connect := .ok ()
    setupPayment := .ok { destinationAssetScale := 2
                          destinationAssetCode := "USD"
                          accountUrl := "https://wallet.example/bob" }
    createAccount := .ok { id := "sub1", assetCode := "USD", assetScale := 2 }
    newPaymentId := "p2" }

/-! ## Claims C3, C6, C7, C9: `create` -/

/-- An intent with neither `paymentPointer+amountToSend` nor `invoiceUrl`. -/
def emptyIntentOptions : CreateOptions :=
  { paymentPointer := none
    invoiceUrl := none
    amountToSend := none
    autoApprove := false
    superAccountId := "super1" }

/-- C3 (counterexample): an intent with neither `paymentPointer+amountToSend`
nor `invoiceUrl` is not rejected — the guard only fires when `invoiceUrl`
is combined with the fixed-send fields — and with the external calls
succeeding, `create` persists a payment for it. -/
theorem create_empty_intent_accepted_counterexample :
    intentConflict emptyIntentOptions = false
    ∧ (createOutgoingPayment envAllOk emptyIntentOptions).1.isOk = true := by
  decide

/-- C3 (amended): `create` rejects an intent exactly when `invoiceUrl` is
present together with `paymentPointer` or `amountToSend`; in that case
it throws the mutual-exclusion error before opening a plugin or
persisting anything.  Every other intent — including one with neither
alternative present — passes validation, and is persisted when the
external calls succeed. -/
theorem create_validation (env : CreateEnv) (options : CreateOptions) :
    (intentConflict options = true →
      createOutgoingPayment env options
        = (.error "invoiceUrl and (paymentPointer,amountToSend) are mutually exclusive",
           []))
    ∧ (intentConflict options = false →
        ∀ d a, env.connect = Except.ok ()
          → env.setupPayment = Except.ok d
          → env.createAccount = Except.ok a
          → (createOutgoingPayment env options).1.isOk = true) := by
  constructor
  · intro h
    simp [createOutgoingPayment, h]
  · intro h d a hc hs ha
    simp [createOutgoingPayment, h, hc, hs, ha, Except.isOk, Except.toBool]

/-- Witness for C3 at concrete inputs: an intent holding both an invoice
and a payment pointer is rejected; the empty intent is accepted. -/
theorem create_validation_witness :
    createOutgoingPayment envAllOk
        { emptyIntentOptions with
            invoiceUrl := some "https://rcv.example/invoice/42"
            paymentPointer := some "$wallet.example/bob" }
      = (.error "invoiceUrl and (paymentPointer,amountToSend) are mutually exclusive",
         [])
    ∧ (createOutgoingPayment envAllOk emptyIntentOptions).1.isOk = true := by
  refine ⟨?_, ?_⟩
  · exact (create_validation envAllOk
      { emptyIntentOptions with
          invoiceUrl := some "https://rcv.example/invoice/42"
          paymentPointer := some "$wallet.example/bob" }).1 (by decide)
  · exact (create_validation envAllOk emptyIntentOptions).2 (by decide)
      { destinationAssetScale := 2, destinationAssetCode := "USD"
        accountUrl := "https://wallet.example/bob" }
      { id := "sub1", assetCode := "USD", assetScale := 2 }
      rfl rfl rfl

/-- A fixed-send intent: payment pointer plus a positive amount. -/
def fixedSendOptions : CreateOptions :=
  { paymentPointer := some "$wallet.example/bob"
    invoiceUrl := none
    amountToSend := some 1000
    autoApprove := true
    superAccountId := "super1" }

/-- C6 (counterexample): immediately after a successful `create` the row's
`destinationAccount` is already populated from the `Pay.setupPayment`
destination — it is not left unset for a later quoting step. -/
theorem create_destination_set_counterexample :
    (createOutgoingPayment envAllOk fixedSendOptions).1.map
        Payment.destinationAccount
      = Except.ok (some { scale := 2, code := "USD"
                          url := "https://wallet.example/bob" })
    ∧ (createOutgoingPayment envAllOk fixedSendOptions).1.map
        Payment.destinationAccount ≠ Except.ok none := by
  decide

/-- C6 (amended): the `destinationAccount` fields are captured by `create`
itself, from the `setupPayment` call `create` performs: for every
successful run, the inserted row's `destinationAccount` equals the
destination's asset scale, asset code and account url. -/
theorem create_captures_destination (env : CreateEnv) (options : CreateOptions)
    (d : Destination) (p : Payment)
    (hs : env.setupPayment = Except.ok d)
    (hp : (createOutgoingPayment env options).1 = Except.ok p) :
    p.destinationAccount
      = some { scale := d.destinationAssetScale
               code := d.destinationAssetCode
               url := d.accountUrl } := by
  by_cases h : intentConflict options
  · simp [createOutgoingPayment, h] at hp
  · rcases hc : env.connect with e | u
    · simp [createOutgoingPayment, h, hc] at hp
    · rcases ha : env.createAccount with e | a
      · simp [createOutgoingPayment, h, hc, hs, ha] at hp
      · simp [createOutgoingPayment, h, hc, hs, ha] at hp
        simp [← hp]

/-- The row `create` inserts in `envAllOk` for `fixedSendOptions`. -/
def createdFixedSend : Payment :=
  { id := "p2"
    state := PaymentState.Inactive
    stateAttempts := 0
    intent := { paymentPointer := some "$wallet.example/bob"
                invoiceUrl := none
                amountToSend := some 1000
                autoApprove := true }
    accountId := "sub1"
    superAccountId := "super1"
    sourceAccount := { id := "sub1", code := "USD", scale := 2 }
    destinationAccount := some { scale := 2, code := "USD"
                                 url := "https://wallet.example/bob" }
    quote := none
    error := none }

/-- Witness for C6: the concrete all-succeeding run captures the
destination record. -/
theorem create_captures_destination_witness :
    (createOutgoingPayment envAllOk fixedSendOptions).1
      = Except.ok createdFixedSend
    ∧ createdFixedSend.destinationAccount
      = some { scale := 2, code := "USD"
               url := "https://wallet.example/bob" } :=
  ⟨by decide,
   create_captures_destination envAllOk fixedSendOptions
     { destinationAssetScale := 2, destinationAssetCode := "USD"
       accountUrl := "https://wallet.example/bob" }
     createdFixedSend rfl (by decide)⟩

/-- A fixed-send intent whose `amountToSend` is zero. -/
def zeroAmountOptions : CreateOptions :=
  { paymentPointer := some "$wallet.example/bob"
    invoiceUrl := none
    amountToSend := some 0
    autoApprove := false
    superAccountId := "super1" }

/-- C7 (counterexample): an intent with `amountToSend = 0` (and a payment
pointer) is not rejected by `create` — no `InvalidIntent` is raised —
and with the external calls succeeding a payment carrying
`amountToSend = 0` is persisted. -/
theorem create_zero_amount_accepted_counterexample :
    (createOutgoingPayment envAllOk zeroAmountOptions).1
      = Except.ok { createdFixedSend with
          intent := { createdFixedSend.intent with
                        amountToSend := some 0, autoApprove := false } } := by
  decide

/-- C7 (amended): `create` applies no zero-amount validation: for every
intent with `amountToSend = 0` and no invoice url, the mutual-exclusion
guard passes, and whenever the external calls succeed the persisted
row's intent still carries `amountToSend = 0`. -/
theorem create_no_zero_amount_check (env : CreateEnv) (options : CreateOptions)
    (h0 : options.amountToSend = some 0)
    (hinv : options.invoiceUrl = none)
    (d : Destination) (a : CreatedAccount)
    (hc : env.connect = Except.ok ())
    (hs : env.setupPayment = Except.ok d)
    (ha : env.createAccount = Except.ok a) :
    intentConflict options = false
    ∧ (createOutgoingPayment env options).1.map
        (fun p => p.intent.amountToSend) = Except.ok (some 0) := by
  have hguard : intentConflict options = false := by
    simp [intentConflict, hinv, jsTruthy]
  refine ⟨hguard, ?_⟩
  simp [createOutgoingPayment, hguard, hc, hs, ha, Except.map, h0]

/-- Witness for C7 at the concrete zero-amount intent. -/
theorem create_no_zero_amount_check_witness :
    intentConflict zeroAmountOptions = false
    ∧ (createOutgoingPayment envAllOk zeroAmountOptions).1.map
        (fun p => p.intent.amountToSend) = Except.ok (some 0) :=
  create_no_zero_amount_check envAllOk zeroAmountOptions rfl rfl
    { destinationAssetScale := 2, destinationAssetCode := "USD"
      accountUrl := "https://wallet.example/bob" }
    { id := "sub1", assetCode := "USD", assetScale := 2 }
    rfl rfl rfl

/-- C9: the plugin trace of `create`.  `Pay.setupPayment` runs under a
`finally` that disconnects the plugin, so whenever the plugin was
connected (intent valid, `connect` succeeded) the trace is exactly
connect-then-disconnect, whatever `setupPayment` and the account
creation return — a failed setup never leaks a connected plugin. -/
theorem create_plugin_released (env : CreateEnv) (options : CreateOptions)
    (hguard : intentConflict options = false)
    (hc : env.connect = Except.ok ()) :
    (createOutgoingPayment env options).2
      = [PluginEvent.connect, PluginEvent.disconnect] := by
  rcases hs : env.setupPayment with e | d
  · simp [createOutgoingPayment, hguard, hc, hs]
  · rcases ha : env.createAccount with e | a <;>
      simp [createOutgoingPayment, hguard, hc, hs, ha]

/-- Witness for C9: the disconnect happens both on a successful
`setupPayment` and on a failing one. -/
theorem create_plugin_released_witness :
    (createOutgoingPayment envAllOk fixedSendOptions).2
      = [PluginEvent.connect, PluginEvent.disconnect]
    ∧ (createOutgoingPayment
          { envAllOk with setupPayment := .error "ConnectorError" }
          fixedSendOptions).2
      = [PluginEvent.connect, PluginEvent.disconnect] :=
  ⟨create_plugin_released envAllOk fixedSendOptions (by decide) rfl,
   create_plugin_released
     { envAllOk with setupPayment := .error "ConnectorError" }
     fixedSendOptions (by decide) rfl⟩

/-! ## The resolver's error classification (resolver lines 228-280) -/

/-- The closed set of `PaymentError` codes of the streaming layer
(`@interledger/pay`), exactly the keys of the resolver's `clientErrors`
table. -/
inductive PaymentError
  | InvalidPaymentPointer
  | InvalidCredentials
  | InvalidSlippage
  | UnknownSourceAsset
  | UnknownPaymentTarget
  | InvalidSourceAmount
  | InvalidDestinationAmount
  | UnenforceableDelivery
  | InvalidQuote
  | QueryFailed
  | InvoiceAlreadyPaid
  | ConnectorError
  | EstablishmentFailed
  | UnknownDestinationAsset
  | DestinationAssetConflict
  | ExternalRateUnavailable
  | RateProbeFailed
  | InsufficientExchangeRate
  | IdleTimeout
  | ClosedByReceiver
  | IncompatibleReceiveMax
  | ReceiverProtocolViolation
  | MaxSafeEncryptionLimit
deriving DecidableEq, Repr

/-- The resolver's `clientErrors` table (resolver lines 228-254), entry by
entry. -/
def clientErrors : PaymentError → Bool
  | .InvalidPaymentPointer => true
  | .InvalidCredentials => true
  | .InvalidSlippage => false
  | .UnknownSourceAsset => true
  | .UnknownPaymentTarget => true
  | .InvalidSourceAmount => true
  | .InvalidDestinationAmount => true
  | .UnenforceableDelivery => true
  | .InvalidQuote => false
  | .QueryFailed => true
  | .InvoiceAlreadyPaid => false
  | .ConnectorError => false
  | .EstablishmentFailed => false
  | .UnknownDestinationAsset => false
  | .DestinationAssetConflict => false
  | .ExternalRateUnavailable => false
  | .RateProbeFailed => false
  | .InsufficientExchangeRate => false
  | .IdleTimeout => false
  | .ClosedByReceiver => false
  | .IncompatibleReceiveMax => false
  | .ReceiverProtocolViolation => false
  | .MaxSafeEncryptionLimit => false

/-- What the `createOutgoingPayment` resolver's `catch` receives: a
`PaymentError` string from the streaming layer, or an ordinary `Error`. -/
inductive CaughtValue
  | payErr (e : PaymentError)
  | jsError (msg : String)
deriving DecidableEq, Repr

/-- The `catch` branch of the `createOutgoingPayment` resolver (lines
275-279): `code: isPaymentError(err) && clientErrors[err] ? '400' : '500'`. -/
def createCatchCode : CaughtValue → String
  | .payErr e => if clientErrors e then "400" else "500"
  | .jsError _ => "500"

/-- Modelled from the spec (§7): the terminal client-caused subset of
`PaymentError`, as the spec lists it.  Stated independently of the
source's `clientErrors` table so the two can be compared. -/
def specTerminalClientSet : PaymentError → Bool
  | .InvalidPaymentPointer => true
  | .InvalidCredentials => true
  | .UnknownSourceAsset => true
  | .UnknownPaymentTarget => true
  | .InvalidSourceAmount => true
  | .InvalidDestinationAmount => true
  | .UnenforceableDelivery => true
  | .QueryFailed => true
  | _ => false

/-- Modelled from the spec (§7): the retryable/server subset of
`PaymentError`, as the spec lists it. -/
def specRetryableServerSet : PaymentError → Bool
  | .InvalidSlippage => true
  | .InvalidQuote => true
  | .InvoiceAlreadyPaid => true
  | .ConnectorError => true
  | .EstablishmentFailed => true
  | .UnknownDestinationAsset => true
  | .DestinationAssetConflict => true
  | .ExternalRateUnavailable => true
  | .RateProbeFailed => true
  | .InsufficientExchangeRate => true
  | .IdleTimeout => true
  | .ClosedByReceiver => true
  | .IncompatibleReceiveMax => true
  | .ReceiverProtocolViolation => true
  | .MaxSafeEncryptionLimit => true
  | _ => false

/-- C5: for every `PaymentError` raised during create, the resolver
responds `'400'` exactly on the spec's terminal client-caused set and
`'500'` exactly on the spec's retryable/server set. -/
theorem create_catch_code_partition (e : PaymentError) :
    (createCatchCode (.payErr e) = "400" ↔ specTerminalClientSet e = true)
    ∧ (createCatchCode (.payErr e) = "500" ↔ specRetryableServerSet e = true) := by
  cases e <;> decide

/-! ## The `pageInfo` resolver (resolver lines 423-477) -/

/-- A connection edge: the cursor plus the node's payment id (the only
node field the resolver reads). -/
structure Edge where
  cursor : String
  nodeId : String
deriving DecidableEq, Repr

/-- Pagination arguments of `getAccountPage`. -/
structure PageArgs where
  after : Option String
  before : Option String
  firstCount : Option Nat
  lastCount : Option Nat
deriving DecidableEq, Repr

/-- The resolver's `PageInfo` result. -/
structure PageInfo where
  startCursor : Option String
  endCursor : Option String
  hasNextPage : Bool
  hasPreviousPage : Bool
deriving DecidableEq, Repr

/-- The services the resolver calls: `outgoingPaymentService.get` and
`outgoingPaymentService.getAccountPage` (which may throw). -/
structure PageEnv where
  getPayment : String → Option Payment
  getAccountPage : String → PageArgs → Except String (List Payment)

/-- The resolver's `try { ... } catch (e) { ... = [] }` around a probe. -/
def pageOrEmpty (r : Except String (List Payment)) : List Payment :=
  r.toOption.getD []

/-- `getOutgoingPaymentPageInfo` (resolver lines 423-477): empty or
missing edges give `false/false`; otherwise the account of the first
edge's payment is probed one-past-the-last-cursor and
one-before-the-first-cursor, and each flag is `length == 1` of the
corresponding probe. -/
def getOutgoingPaymentPageInfo (env : PageEnv) (edges : Option (List Edge)) :
    Except String PageInfo :=
  match edges with
  | none =>
    .ok { startCursor := none, endCursor := none
          hasNextPage := false, hasPreviousPage := false }
  | some [] =>
    .ok { startCursor := none, endCursor := none
          hasNextPage := false, hasPreviousPage := false }
  | some (e0 :: rest) =>
    let firstEdge := e0.cursor
    let lastEdge := ((e0 :: rest).getLast (List.cons_ne_nil e0 rest)).cursor
    match env.getPayment e0.nodeId with
    | none => .error "payment does not exist"
    | some firstPayment =>
      let hasNextPagePayments := pageOrEmpty (env.getAccountPage
        firstPayment.accountId
        { after := some lastEdge, before := none
          firstCount := some 1, lastCount := none })
      let hasPreviousPagePayments := pageOrEmpty (env.getAccountPage
        firstPayment.accountId
        { after := none, before := some firstEdge
          firstCount := none, lastCount := some 1 })
      .ok { startCursor := some firstEdge
            endCursor := some lastEdge
            hasNextPage := hasNextPagePayments.length == 1
            hasPreviousPage := hasPreviousPagePayments.length == 1 }

/-- C8: the paging flags come from one-more probes: for every non-empty
edge list whose first payment resolves, `hasNextPage` holds exactly when
a page of size 1 after the last edge's cursor contains exactly one
payment, `hasPreviousPage` exactly when a page of size 1 before the
first edge's cursor contains exactly one payment; for a missing or empty
edge list both flags are false. -/
theorem pageInfo_probe (env : PageEnv) (e0 : Edge) (rest : List Edge)
    (fp : Payment) (pi : PageInfo)
    (hfp : env.getPayment e0.nodeId = some fp)
    (hpi : getOutgoingPaymentPageInfo env (some (e0 :: rest)) = Except.ok pi) :
    (pi.hasNextPage = true ↔
      (pageOrEmpty (env.getAccountPage fp.accountId
        { after := some (((e0 :: rest).getLast
            (List.cons_ne_nil e0 rest)).cursor)
          before := none, firstCount := some 1, lastCount := none })).length = 1)
    ∧ (pi.hasPreviousPage = true ↔
      (pageOrEmpty (env.getAccountPage fp.accountId
        { after := none, before := some e0.cursor
          firstCount := none, lastCount := some 1 })).length = 1)
    ∧ getOutgoingPaymentPageInfo env none
        = Except.ok { startCursor := none, endCursor := none
                      hasNextPage := false, hasPreviousPage := false }
    ∧ getOutgoingPaymentPageInfo env (some [])
        = Except.ok { startCursor := none, endCursor := none
                      hasNextPage := false, hasPreviousPage := false } := by
  refine ⟨?_, ?_, rfl, rfl⟩ <;>
    · simp [getOutgoingPaymentPageInfo, hfp] at hpi
      subst hpi
      simp

/-- A sample environment for the pageInfo witness: the payment of
`createdFixedSend` is reachable, forward probes return one payment,
backward probes return none. -/
def pageEnvEx : PageEnv :=
  { getPayment := fun s => if s = "p2" then some createdFixedSend else none
    getAccountPage := fun _ args =>
      if args.firstCount.isSome then Except.ok [createdFixedSend]
      else Except.ok [] }

/-- Witness for C8 at a one-edge list in `pageEnvEx`: the resolver
reports `hasNextPage` (forward probe returned one payment) and not
`hasPreviousPage` (backward probe returned none). -/
theorem pageInfo_probe_witness :
    pageEnvEx.getPayment "p2" = some createdFixedSend
    ∧ getOutgoingPaymentPageInfo pageEnvEx (some [{ cursor := "c1", nodeId := "p2" }])
        = Except.ok { startCursor := some "c1", endCursor := some "c1"
                      hasNextPage := true, hasPreviousPage := false }
    ∧ (((true : Bool) = true) ↔
        (pageOrEmpty (pageEnvEx.getAccountPage createdFixedSend.accountId
          { after := some "c1", before := none
            firstCount := some 1, lastCount := none })).length = 1)
    ∧ (((false : Bool) = true) ↔
        (pageOrEmpty (pageEnvEx.getAccountPage createdFixedSend.accountId
          { after := none, before := some "c1"
            firstCount := none, lastCount := some 1 })).length = 1) := by
  have h := pageInfo_probe pageEnvEx { cursor := "c1", nodeId := "p2" } []
    createdFixedSend
    { startCursor := some "c1", endCursor := some "c1"
      hasNextPage := true, hasPreviousPage := false }
    rfl (by decide)
  exact ⟨rfl, by decide, h.1, h.2.1⟩

/-! ## The SPSP handler (`services/spsp.ts`) -/

/-- An incoming SPSP request, with the outcomes of the two external
checks the handler applies to it: `uuid.validate(id) && version === 4`,
and `accept.includes('application/spsp4+json')`. -/
structure SPSPRequest where
  userId : String
  validIdV4 : Bool
  acceptHasSPSP : Bool
  receiptNonce : Option String
  receiptSecret : Option String
deriving DecidableEq, Repr

/-- A user row of the `users` table. -/
structure SPSPUser where
  id : String
  accountId : String
deriving DecidableEq, Repr

/-- Outcome of the axios `GET /ilp-accounts/:id` (statuses 200 and 404
resolve; anything else rejects and the middleware throws). -/
inductive IlpAccountLookup
  | found (disabled : Bool) (streamEnabled : Bool) (asset : String)
  | missing
  | requestFailed (msg : String)
deriving DecidableEq, Repr

/-- STREAM credentials returned by `server.generateCredentials`. -/
structure StreamCredentials where
  ilpAddress : String
  sharedSecret : String
deriving DecidableEq, Repr

/-- External collaborators of the handler: the user table, the accounts
API, and the STREAM server (whose `generateCredentials` may throw).  The
credential generator receives the payment tag and the optional receipt
setup `(nonce, secret)`. -/
structure SPSPEnv where
  findUser : String → Option SPSPUser
  getIlpAccount : String → IlpAccountLookup
  generateCredentials :
    String → Option (String × String) → String → Except String StreamCredentials

/-- The handler's possible responses: `ctx.throw(status, msg)`, the 404
`InvalidReceiverError` body, or an SPSP credential body carrying
`receipts_enabled`. -/
inductive SPSPResponse
  | thrown (status : Nat) (msg : String)
  | invalidReceiver
  | credentials (destinationAccount sharedSecret : String)
      (receiptsEnabled : Bool)
deriving DecidableEq, Repr

/-- The `receiptSetup` argument built for `generateCredentials`:
`nonce && secret ? { nonce, secret } : undefined`. -/
def receiptSetupOf (req : SPSPRequest) : Option (String × String) :=
  if jsTruthy req.receiptNonce && jsTruthy req.receiptSecret then
    match req.receiptNonce, req.receiptSecret with
    | some n, some s => some (n, s)
    | _, _ => none
  else none

/-- `handleSPSP` (spsp.ts lines 23-90), check for check: invalid-or-non-v4
id → 400; accept header without `application/spsp4+json` → 406; exactly
one truthy receipt header → 400; unknown user or missing/disabled ILP
account → the 404 body; stream disabled → 400; then credentials are
issued with `receipts_enabled = !!(nonce && secret)`, a throwing
generator becoming a 400. -/
def handleSPSP (env : SPSPEnv) (req : SPSPRequest) : SPSPResponse :=
  if !req.validIdV4 then
    .thrown 400 "Failed to generate credentials: invalid user id"
  else if !req.acceptHasSPSP then
    .thrown 406
      "Failed to generate credentials: invalid accept: must support application/spsp4+json"
  else if jsTruthy req.receiptNonce ≠ jsTruthy req.receiptSecret then
    .thrown 400
      "Failed to generate credentials: receipt nonce and secret must accompany each other"
  else
    match env.findUser req.userId with
    | none => .invalidReceiver
    | some user =>
      match env.getIlpAccount user.accountId with
      | .requestFailed msg => .thrown 500 msg
      | .missing => .invalidReceiver
      | .found disabled streamEnabled asset =>
        if disabled then .invalidReceiver
        else if !streamEnabled then
          .thrown 400 "Failed to generate credentials: stream is disabled for account"
        else
          match env.generateCredentials user.accountId (receiptSetupOf req) asset with
          | .error m => .thrown 400 m
          | .ok creds =>
            .credentials creds.ilpAddress creds.sharedSecret
              (jsTruthy req.receiptNonce && jsTruthy req.receiptSecret)

/-- An environment with no users, for the counterexample (the request is
rejected before any lookup happens). -/
def spspEnvEmpty : SPSPEnv :=
  { findUser := fun _ => none
    getIlpAccount := fun _ => .missing
    generateCredentials := fun _ _ _ => .error "credentials unavailable" }

/-- C10 (counterexample): a request carrying exactly one receipt header
(`receipt-nonce` only) but an `Accept` without `application/spsp4+json`
is answered 406, not 400: the accept check precedes the receipt-header
check. -/
theorem spsp_one_header_406_counterexample :
    handleSPSP spspEnvEmpty
        { userId := "7c588663-4f3b-45a1-b352-2b0d4b4e78d3"
          validIdV4 := true
          acceptHasSPSP := false
          receiptNonce := some "bm9uY2U="
          receiptSecret := none }
      = SPSPResponse.thrown 406
          "Failed to generate credentials: invalid accept: must support application/spsp4+json" := by
  decide

/-- C10 (amended): once the user-id and accept checks pass, a request
with exactly one truthy receipt header is answered 400 without
credentials, and any credentials the handler does issue carry
`receipts_enabled = true` exactly when both receipt headers are truthy
(so `true` when both are present, `false` when neither is). -/
theorem spsp_receipt_headers (env : SPSPEnv) (req : SPSPRequest)
    (hid : req.validIdV4 = true)
    (hacc : req.acceptHasSPSP = true) :
    (jsTruthy req.receiptNonce ≠ jsTruthy req.receiptSecret →
      handleSPSP env req
        = SPSPResponse.thrown 400
            "Failed to generate credentials: receipt nonce and secret must accompany each other")
    ∧ (∀ d s re, handleSPSP env req = SPSPResponse.credentials d s re →
        re = (jsTruthy req.receiptNonce && jsTruthy req.receiptSecret)) := by
  constructor
  · intro hne
    simp [handleSPSP, hid, hacc, hne]
  · intro d s re h
    by_cases hne : jsTruthy req.receiptNonce = jsTruthy req.receiptSecret
    · have hne' : ¬(jsTruthy req.receiptNonce ≠ jsTruthy req.receiptSecret) := by
        simp [hne]
      rcases hu : env.findUser req.userId with _ | user
      · simp [handleSPSP, hid, hacc, hne', hu] at h
      · rcases hacct : env.getIlpAccount user.accountId with ⟨dis, se, asset⟩ | _ | msg
        · rcases hg : env.generateCredentials user.accountId
              (receiptSetupOf req) asset with m | creds
          · cases dis <;> cases se <;>
              simp [handleSPSP, hid, hacc, hne', hu, hacct, hg] at h
          · cases dis <;> cases se <;>
              simp [handleSPSP, hid, hacc, hne', hu, hacct, hg] at h
            exact h.2.2.symm
        · simp [handleSPSP, hid, hacc, hne', hu, hacct] at h
        · simp [handleSPSP, hid, hacc, hne', hu, hacct] at h
    · have h400 : handleSPSP env req
          = SPSPResponse.thrown 400
              "Failed to generate credentials: receipt nonce and secret must accompany each other" := by
        simp [handleSPSP, hid, hacc, hne]
      rw [h400] at h
      exact absurd h (by simp)

/-- An environment taking the happy path: the user resolves, the ILP
account is enabled with streaming on, and credential generation
succeeds. -/
def spspEnvHappy : SPSPEnv :=
  { findUser := fun s => if s = "u1" then some { id := "u1", accountId := "acct1" }
      else none
    getIlpAccount := fun _ => .found false true "USD"
    generateCredentials := fun _ _ _ =>
      .ok { ilpAddress := "g.ilp.stream", sharedSecret := "c2hhcmVk" } }

/-- A request carrying both receipt headers. -/
def reqBothEx : SPSPRequest :=
  { userId := "u1", validIdV4 := true, acceptHasSPSP := true
    receiptNonce := some "bm9uY2U=", receiptSecret := some "c2VjcmV0" }

/-- A request carrying neither receipt header. -/
def reqNeitherEx : SPSPRequest :=
  { userId := "u1", validIdV4 := true, acceptHasSPSP := true
    receiptNonce := none, receiptSecret := none }

/-- Witness for C10: concrete 400 on a nonce-only request, and concrete
credentials with `receipts_enabled` true for both headers, false for
neither. -/
theorem spsp_receipt_headers_witness :
    handleSPSP spspEnvHappy
        { userId := "u1", validIdV4 := true, acceptHasSPSP := true
          receiptNonce := some "bm9uY2U=", receiptSecret := none }
      = SPSPResponse.thrown 400
          "Failed to generate credentials: receipt nonce and secret must accompany each other"
    ∧ handleSPSP spspEnvHappy reqBothEx
      = SPSPResponse.credentials "g.ilp.stream" "c2hhcmVk" true
    ∧ (true : Bool)
      = (jsTruthy reqBothEx.receiptNonce && jsTruthy reqBothEx.receiptSecret)
    ∧ handleSPSP spspEnvHappy reqNeitherEx
      = SPSPResponse.credentials "g.ilp.stream" "c2hhcmVk" false
    ∧ (false : Bool)
      = (jsTruthy reqNeitherEx.receiptNonce && jsTruthy reqNeitherEx.receiptSecret) := by
  refine ⟨?_, by decide, ?_, by decide, ?_⟩
  · exact (spsp_receipt_headers spspEnvHappy
      { userId := "u1", validIdV4 := true, acceptHasSPSP := true
        receiptNonce := some "bm9uY2U=", receiptSecret := none } rfl rfl).1
      (by decide)
  · exact (spsp_receipt_headers spspEnvHappy reqBothEx rfl rfl).2
      "g.ilp.stream" "c2hhcmVk" true (by decide)
  · exact (spsp_receipt_headers spspEnvHappy reqNeitherEx rfl rfl).2
      "g.ilp.stream" "c2hhcmVk" false (by decide)

end Rafiki
